import Mathlib

/-!
Verification development for the InventoryAPI repository
(`function_app.py` and `shared/names.py`).

The Python code is shallowly embedded: Python `str` values are Lean
`String`s (manipulated through their underlying `List Char`, so that the
relevant Python string primitives — `split`, `strip`, `lower`,
`startswith`, `in`, `replace` — have small recursive Lean counterparts that
can be reasoned about by induction); Python dictionaries of heterogeneous
values are association lists over a `PyVal` value type; Python numbers
(`int`/`float` produced by `float(...)`) are modelled as `Rat`; fallible
operations return `Option`/`Except`.  The language-model client is an
oracle `String → Except String String` mapping the user-message prompt to
the response content (success) or the exception text (failure); the prompt
construction itself is embedded from the source.
-/

/-- The ASCII apostrophe character (U+0027), as used by
`function_app.extract_brand`. -/
def apos : Char := Char.ofNat 39

/-- The ASCII apostrophe as a one-character string. -/
def aposS : String := String.singleton apos

/-- Python `str.strip()` whitespace test (ASCII fragment; Python also
strips a few rarer unicode spaces, which no claim exercises). -/
def pyIsWS (c : Char) : Bool := c.isWhitespace

/-- Drop leading and trailing whitespace: Python `str.strip()` on the
character list. -/
def pyStrip (cs : List Char) : List Char :=
  ((cs.dropWhile pyIsWS).reverse.dropWhile pyIsWS).reverse

/-- Python `str.strip()`. -/
def pyStripS (s : String) : String := ⟨pyStrip s.data⟩

/-- Python `str.lower()` (ASCII case folding, which covers every string the
claims exercise). -/
def pyLower (s : String) : String := ⟨s.data.map Char.toLower⟩

/-- Python `s.split(sep)` for a one-character separator `sep`, on character
lists.  `[]` splits to `[[]]`, matching Python `"".split(sep) == [""]`. -/
def pyCharsSplitOn (sep : Char) : List Char → List (List Char)
  | [] => [[]]
  | c :: cs =>
    if c = sep then [] :: pyCharsSplitOn sep cs
    else
      match pyCharsSplitOn sep cs with
      | [] => [[c]]
      | w :: ws => (c :: w) :: ws

/-- Python `s.split()` (no argument): split on runs of whitespace,
discarding empty fields.  `acc` holds the characters of the word currently
being read, in reverse. -/
def pyWordsAux (acc : List Char) : List Char → List (List Char)
  | [] => if acc.isEmpty then [] else [acc.reverse]
  | c :: cs =>
    if pyIsWS c then
      if acc.isEmpty then pyWordsAux [] cs
      else acc.reverse :: pyWordsAux [] cs
    else pyWordsAux (c :: acc) cs

/-- Python `s.split()` (no argument). -/
def pyWords (cs : List Char) : List (List Char) := pyWordsAux [] cs

/-- Python `line.split(":", 1)[1]`: the characters after the first colon
(empty when the line has no colon; the code only applies this to lines
that are known to contain one). -/
def afterFirstColon (cs : List Char) : List Char :=
  (cs.dropWhile (fun c => !(c = ':'))).drop 1

/-- Python `s.replace(a, b)` for one-character `a`, `b`. -/
def pyReplaceChar (a b : Char) (cs : List Char) : List Char :=
  cs.map (fun c => if c = a then b else c)

/-- A Python value as it occurs in the item dictionaries: a string, a
number (`int`/`float`, modelled as `Rat`), or `None`. -/
inductive PyVal where
  | vStr (s : String)
  | vNum (q : Rat)
  | vNone
deriving DecidableEq

/-- A Python dictionary with string keys, as an association list (first
binding of a key wins, like the dict the code builds). -/
def PyDict := List (String × PyVal)
deriving DecidableEq

/-- Python `d[k]` / `d.get(k)` without default: `none` when absent. -/
def dictGet (d : PyDict) (k : String) : Option PyVal :=
  (List.find? (fun p => p.1 = k) d).map Prod.snd

/-- Python `d.get(k, dflt)`. -/
def pyGetD (d : PyDict) (k : String) (dflt : PyVal) : PyVal :=
  (dictGet d k).getD dflt

/-- Python truthiness of `d.get(k)` (used by `if not item.get(field)`):
absent keys give `None`, which is falsy; empty strings and zero are
falsy. -/
def pyTruthy : Option PyVal → Bool
  | none => false
  | some (.vStr s) => !(s == "")
  | some (.vNum q) => !(q == 0)
  | some .vNone => false

/-- Python truthiness of a dictionary (`if not item:`): empty dict is
falsy. -/
def pyDictTruthy (d : PyDict) : Bool := !(List.isEmpty d)

/-- Parse an unsigned decimal literal (digits with an optional single
point), the fragment of Python `float(str)` syntax the repository's data
exercises; anything else fails like Python `ValueError`. -/
def parseDecimalAux (cs : List Char) : Option Rat :=
  let intPart := cs.takeWhile Char.isDigit
  let rest := cs.dropWhile Char.isDigit
  match rest with
  | [] =>
    if intPart.isEmpty then none
    else some ((intPart.foldl (fun n c => 10 * n + c.toNat - 48) 0 : Nat) : Rat)
  | p :: frac =>
    if !(p = Char.ofNat 46) then none
    else if frac.any (fun c => !c.isDigit) then none
    else if intPart.isEmpty && frac.isEmpty then none
    else
      let num : Nat := (intPart ++ frac).foldl (fun n c => 10 * n + c.toNat - 48) 0
      some ((num : Rat) / ((10 : Rat) ^ frac.length))

/-- Python `float(s)` on a string: optional surrounding whitespace,
optional sign, then a decimal literal.  (Exponent/`inf`/`nan` forms are
omitted: no claim exercises them.) -/
def pyFloatOfString (s : String) : Option Rat :=
  match pyStrip s.data with
  | [] => none
  | c :: cs =>
    if c = Char.ofNat 45 then (parseDecimalAux cs).map Neg.neg
    else if c = Char.ofNat 43 then parseDecimalAux cs
    else parseDecimalAux (c :: cs)

/-- Python `float(v)`: numbers pass through, strings are parsed, `None`
raises `TypeError` (so: `none`). -/
def pyFloat : PyVal → Option Rat
  | .vNum q => some q
  | .vStr s => pyFloatOfString s
  | .vNone => none

/-- How a Python f-string renders a value (`str(v)`): strings verbatim,
`None` as `"None"`.  The rendering of numbers is schematic (`Rat.repr`
differs from CPython float formatting); no claim depends on it. -/
def pyStrOfVal : PyVal → String
  | .vStr s => s
  | .vNone => "None"
  | .vNum q => toString q

/-- How a Python f-string renders an `Optional[str]` (the
`final_name` argument of the second corrector call in
`process_single_item`): `None` renders as the literal string `"None"`. -/
def pyStrOfOpt : Option String → String
  | some s => s
  | none => "None"

/-! ## `shared/names.py` -/

/-- `names.terms_to_remove`. -/
def terms_to_remove : List String :=
  ["plastic", "plst", "refrigerator", "tff", "shelf-stable", "cnt", "box", "bx",
   "bag", "bg", "case", "cs", "each", "ea", "bags", "1 piece", "homemade", "shelf",
   "count", "vacuum", "refrigerated", "premium", "packet", "pack", "pkg", "container",
   "bottle", "jar", "tin", "tub", "tube", "can", "pouch", "single", "dozen", "pair",
   "bulk", "multiple", "variety pack", "frozen", "chilled", "dry", "wet",
   "cured", "smoked", "dried", "standard", "natural", "organic", "artisan", "gourmet",
   "choice", "select", "grade A", "top quality", "chopped", "crushed", "diced", "minced",
   "ready to eat", "local"]

/-- `names.category_specific_rules`: the static category → directives dict,
as an association list in source order (all keys distinct, so dict and
association-list lookup agree). -/
def category_specific_rules : List (String × List String) :=
  [("paper goods and Disposables",
      ["Include size and material", "Remove brand names unless essential"]),
   ("BAKERY", ["Specify bread type first", "Include shape and size if relevant"]),
   ("produce",
      [("Include ") ++ aposS ++ ("Fresh") ++ aposS ++ (" for non-processed items"),
       "Specify variety and form"]),
   ("meat", ["Include cut and preparation method", "Specify key characteristics"]),
   ("seafood", ["Include type and preparation method", "Specify fresh or frozen if relevant"]),
   ("dairy", ["Specify product type first", "Include key descriptors"]),
   ("Dry Grocery", ["Specify item type first", "Include key characteristics"]),
   ("beverages", ["Specify type of beverage first", "Include key descriptors like brand name"])]

/-- `category_specific_rules.get(category, [])`: plain (case-sensitive)
dict lookup with empty-list default, as used by both prompt builders. -/
def categoryRulesGet (category : String) : List String :=
  ((List.find? (fun p => p.1 = category) category_specific_rules).map Prod.snd).getD []

/-- One training example as consumed by the prompt builders
(`ex.get('category', '')`, `ex.get('prompt', '')`,
`ex.get('completion', '')`). -/
structure TrainingExample where
  category : String
  prompt : String
  completion : String
deriving DecidableEq

/-- The category-filtered example selection shared by
`standardize_item_name` and `evaluate_and_correct_item_name`:
`ex.get('category', '').lower() == category.lower()`. -/
def categoryExamplesFor (training_data : List TrainingExample) (category : String) :
    List TrainingExample :=
  training_data.filter (fun ex => pyLower ex.category = pyLower category)

/-- `"\n".join(f"Input: {prompt}\nOutput: {completion}" ...)`. -/
def trainingExamplesBlock (examples : List TrainingExample) : String :=
  String.intercalate ("\n")
    (examples.map (fun ex =>
      ("Input: ") ++ ex.prompt ++ ("\nOutput: ") ++ ex.completion))

/-- `"\n".join(f"- {rule}" for rule in category_rules)`. -/
def categoryRulesBlock (rules : List String) : String :=
  String.intercalate ("\n") (rules.map (fun rule => ("- ") ++ rule))

/-- `', '.join(terms_to_remove)`. -/
def termsJoined : String := String.intercalate (", ") terms_to_remove

/-- The user-message prompt built by `names.standardize_item_name`. -/
def standardizePrompt (training_data : List TrainingExample) (category : String)
    (item_description : String) : String :=
  ("As a restaurant inventory manager, standardize this inventory item name using these guidelines:\n")
  ++ trainingExamplesBlock (categoryExamplesFor training_data category)
  ++ ("\n")
  ++ categoryRulesBlock (categoryRulesGet category)
  ++ ("\nItem Name: ")
  ++ item_description
  ++ ("\n\nRules for Food Items:\n1. Format: Ingredient, Description\n2. Ingredient should come first, followed by a comma and then the description\n3. Use 2-4 words total\n4. Capitalize only the first letter of the ingredient\n5. Remove all packaging information from the name\n\nRules for Non-Food Items:\n1. Include size and essential details in the name\n2. Use 2-4 words total\n3. Capitalize the first letter of each word\n\nGeneral Rules:\n4. Remove brand names unless essential\n5. Use well-known culinary abbreviations\n6. Remove terms like \"refrigerator,\" \"plastic,\" \"shelf-stable\"\n7. Remove place names\n8. For produce, include \"Fresh\" only if distinguishing\n9. For meat and seafood, include cut and preparation\n10. For dairy, specify type\n11. For spices, include form\n12. Remove terms: ")
  ++ termsJoined
  ++ ("\n13. Keep essential descriptors\n\nTask: Standardize this item description: ")
  ++ item_description

/-- `names.standardize_item_name`: one language-model call on the
standardization prompt; the trimmed response on success, the original
description unchanged on any request failure. -/
def standardize_item_name (llm : String → Except String String)
    (item_description : String) (training_data : List TrainingExample)
    (category : String) : String :=
  match llm (standardizePrompt training_data category item_description) with
  | .ok content => pyStripS content
  | .error _ => item_description

/-- The user-message prompt built by `names.evaluate_and_correct_item_name`
(category-filtered examples capped at the first 5). -/
def evalCorrectPrompt (standardized_name original_name category : String)
    (training_data : List TrainingExample) : String :=
  ("Evaluate and correct the following standardized inventory item name:\nStandardized name: ")
  ++ standardized_name
  ++ ("\nOriginal name: ")
  ++ original_name
  ++ ("\nCategory rules:\n")
  ++ categoryRulesBlock (categoryRulesGet category)
  ++ ("\n\nTraining examples:\n")
  ++ trainingExamplesBlock ((categoryExamplesFor training_data category).take 5)
  ++ ("\n\nTerms to remove: ")
  ++ termsJoined
  ++ ("\n\nInstructions:\n- Put core item first\n- Focus on fundamental identity\n- Use \"Core Item, Descriptors\" format\n- Remove unnecessary words\n- Include brand names for beverages if well-known\n- Keep standard measurements when relevant\n\nFinal corrected name: [Your corrected name]\nExplanation: [Brief explanation]")

/-- `names.evaluate_and_correct_item_name`: one language-model call on the
evaluation prompt; the trimmed response on success, and on failure the
returned sentinel string `"Error: "` followed by the exception text (the
whole body sits in one `try`, whose only fallible operation is the
request). -/
def evaluate_and_correct_item_name (llm : String → Except String String)
    (standardized_name original_name category : String)
    (training_data : List TrainingExample) : String :=
  match llm (evalCorrectPrompt standardized_name original_name category training_data) with
  | .ok content => pyStripS content
  | .error e => ("Error: ") ++ e

/-- The label scanned for by `names.extract_final_name`, as characters. -/
def finalNameLabel : List Char := ("final corrected name:").data

/-- The scan loop of `names.extract_final_name`: first line whose
lowercased form starts with the label yields the text after the line's
first colon, stripped. -/
def scanFinalName : List (List Char) → Option String
  | [] => none
  | line :: rest =>
    if finalNameLabel.isPrefixOf (line.map Char.toLower) then
      some ⟨pyStrip (afterFirstColon line)⟩
    else scanFinalName rest

/-- `names.extract_final_name`: split the evaluation text on `'\n'`, scan
the lines in order; `none` when no line matches (the function never
raises). -/
def extract_final_name (evaluation_result : String) : Option String :=
  scanFinalName (pyCharsSplitOn (Char.ofNat 10) evaluation_result.data)

/-! ## `function_app.py` -/

/-- The head of a word that `extract_brand` falls back to: Python
`words[0]` with `words[0][0].isupper()` (an empty word would raise and be
caught, yielding `"Generic"`; `Char.isUpper` is the ASCII fragment of
Python `str.isupper`). -/
def firstWordBrand (words : List (List Char)) : String :=
  match words with
  | [] => "Generic"
  | w :: _ =>
    match w with
    | [] => "Generic"
    | c :: _ => if c.isUpper then ⟨w⟩ else "Generic"

/-- `function_app.extract_brand`.  The source tests for the same ASCII
apostrophe twice (`"'" in item_name or "'" in item_name`) and then
replaces that apostrophe with itself before splitting, so the replace is
the identity; both steps are transcribed. -/
def extract_brand (item_name : String) : String :=
  let cs := item_name.data
  let words := pyWords cs
  if words.isEmpty then "Generic"
  else if cs.contains (Char.ofNat 47) then
    ⟨pyStrip ((pyCharsSplitOn (Char.ofNat 47) cs).headD [])⟩
  else if cs.contains apos || cs.contains apos then
    let possessive_split := pyCharsSplitOn apos (pyReplaceChar apos apos cs)
    if 1 < possessive_split.length then ⟨pyStrip (possessive_split.headD [])⟩
    else firstWordBrand words
  else firstWordBrand words

/-- `extract_brand` as called by the storage formatter, on
`item.get('itemName', '')`: a non-string argument makes every string
method inside raise, and the function's own `except` returns
`"Generic"`. -/
def extract_brand_val : PyVal → String
  | .vStr s => extract_brand s
  | _ => "Generic"

/-- Python `if final_name2: processed_item['final_corrected_name'] = ...`:
the extracted name is attached only when truthy (present and
non-empty). -/
def attachIfTruthy : Option String → Option String
  | some s => if s == "" then none else some s
  | none => none

/-- The name pipeline of `function_app.process_single_item`
(lines 251–277): standardize, evaluate/correct, extract, evaluate/correct
again on the extraction result as passed (rendered `"None"` in the second
prompt when extraction failed), extract again; the result is attached only
when truthy. -/
def nameCorrectionPipeline (llm : String → Except String String)
    (training_data : List TrainingExample) (item_name category : String) :
    Option String :=
  let standardized_name := standardize_item_name llm item_name training_data category
  let evaluation := evaluate_and_correct_item_name llm standardized_name item_name category training_data
  let final_name := extract_final_name evaluation
  let evaluation2 := evaluate_and_correct_item_name llm (pyStrOfOpt final_name) item_name category training_data
  let final_name2 := extract_final_name evaluation2
  attachIfTruthy final_name2

/-- `function_app.process_single_item`: map the raw invoice item into the
processed dict (coercing the five quantity/price fields with `float`,
which raises — so the whole activity returns `None` — on a present but
uncoercible value), then run the two-round name pipeline.  The
`itemdata['supplier']`, `itemdata['invoice_id']`, `itemdata['invoice_number']`
and `itemdata['userId']` entries are passed as parameters (the
orchestrator always sets them).  A non-string `Product Category` makes
`category.lower()` inside `standardize_item_name` raise, which the
activity-level `except` also turns into `None`. -/
def process_single_item (llm : String → Except String String)
    (training_data : List TrainingExample)
    (supplier invoice_id invoice_number user_id : PyVal)
    (item : PyDict) : Option PyDict :=
  match pyFloat (pyGetD item ("Quantity In a Case") (.vNum 0)),
        pyFloat (pyGetD item ("Measurement Of Each Item") (.vNum 0)),
        pyFloat (pyGetD item ("Total Units Ordered") (.vNum 0)),
        pyFloat (pyGetD item ("Case Price") (.vNum 0)),
        pyFloat (pyGetD item ("Cost of a Unit") (.vNum 0)) with
  | some qic, some moe, some tuo, some cp, some cou =>
    match pyGetD item ("Product Category") (.vStr ("")) with
    | .vStr category =>
      let itemName := pyGetD item ("Item Name") (.vStr (""))
      let fname := nameCorrectionPipeline llm training_data (pyStrOfVal itemName) category
      some
        ([("supplier", supplier), ("invoice_id", invoice_id),
          ("invoice_number", invoice_number), ("userId", user_id),
          ("itemName", itemName),
          ("itemNumber", pyGetD item ("Item Number") (.vStr (""))),
          ("quantityInCase", .vNum qic),
          ("measurementOfEachItem", .vNum moe),
          ("measuredIn", pyGetD item ("Measured In") (.vStr (""))),
          ("totalUnitsOrdered", .vNum tuo),
          ("casePrice", .vNum cp),
          ("catchWeight", pyGetD item ("Catch Weight") (.vStr ("N/A"))),
          ("pricedBy", pyGetD item ("Priced By") (.vStr (""))),
          ("splitable", pyGetD item ("Splitable") (.vStr ("NO"))),
          ("splitPrice", pyGetD item ("Split Price") (.vStr ("N/A"))),
          ("costOfUnit", .vNum cou),
          ("productCategory", .vStr category)]
         ++ (match fname with
             | some s => [("final_corrected_name", .vStr s)]
             | none => []))
    | _ => none
  | _, _, _, _, _ => none

/-- The numeric-field test of `validate_storage_item`:
`isinstance(item.get(field), (int, float)) and item.get(field) >= 0` (the
source phrases it as the negated disjunction); an absent key (`None`) or a
string fails the `isinstance` check. -/
def validNumericSlot : Option PyVal → Bool
  | some (.vNum q) => decide (0 ≤ q)
  | _ => false

/-- `function_app.validate_storage_item`: the four required fields must be
truthy, and the five numeric fields must be present with a numeric value
that is `≥ 0`. -/
def validate_storage_item (item : PyDict) : Bool :=
  (["Inventory Item Name", "Item Number", "Category", "Measured In"].all
      (fun field => pyTruthy (dictGet item field)))
  &&
  (["Quantity In a Case", "Measurement Of Each Item", "Total Units",
    "Case Price", "Cost of a Unit"].all
      (fun field => validNumericSlot (dictGet item field)))

/-- The `storage_item` dict built by `store_items_activity` for one
processed item (lines 323–343); `none` when one of the `float` coercions
raises.  `ts` stands for the `utcnow().isoformat()` timestamp string. -/
def formatStorageItem (ts : String) (batch_num : Nat) (item : PyDict) :
    Option PyDict :=
  match pyFloat (pyGetD item ("quantityInCase") (.vNum 0)),
        pyFloat (pyGetD item ("measurementOfEachItem") (.vNum 0)),
        pyFloat (pyGetD item ("totalUnitsOrdered") (.vNum 0)),
        pyFloat (pyGetD item ("casePrice") (.vNum 0)),
        pyFloat (pyGetD item ("costOfUnit") (.vNum 0)) with
  | some qic, some moe, some tu, some cp, some cou =>
    some
      [("Supplier Name", pyGetD item ("supplier") (.vStr (""))),
       ("Inventory Item Name",
          (dictGet item ("final_corrected_name")).getD
            (pyGetD item ("itemName") (.vStr ("")))),
       ("Brand", .vStr (extract_brand_val (pyGetD item ("itemName") (.vStr (""))))),
       ("Inventory Unit of Measure", pyGetD item ("measuredIn") (.vStr (""))),
       ("Item Name", pyGetD item ("itemName") (.vStr (""))),
       ("Item Number", pyGetD item ("itemNumber") (.vStr (""))),
       ("Quantity In a Case", .vNum qic),
       ("Measurement Of Each Item", .vNum moe),
       ("Measured In", pyGetD item ("measuredIn") (.vStr (""))),
       ("Total Units", .vNum tu),
       ("Case Price", .vNum cp),
       ("Catch Weight", pyGetD item ("catchWeight") (.vStr ("N/A"))),
       ("Priced By", pyGetD item ("pricedBy") (.vStr (""))),
       ("Splitable", pyGetD item ("splitable") (.vStr ("NO"))),
       ("Split Price", pyGetD item ("splitPrice") (.vStr ("N/A"))),
       ("Cost of a Unit", .vNum cou),
       ("Category", pyGetD item ("productCategory") (.vStr (""))),
       ("timestamp", .vStr ts),
       ("batchNumber", .vNum batch_num)]
  | _, _, _, _, _ => none

/-- What the per-item loop of `store_items_activity` does with one item:
skip it silently when falsy, store the formatted record when it
validates, or record one error string (formatting exceptions keep the
`"Error storing item {idx} for user {user_id}"` prefix of the source
message; validation failures use the exact source message). -/
inductive ItemOutcome where
  | skipped
  | stored (record : PyDict)
  | rejected (err : String)
deriving DecidableEq

/-- One iteration of the storage loop (lines 316–359), at index `idx`. -/
def storeItemOutcome (user_id ts : String) (batch_num idx : Nat)
    (item : PyDict) : ItemOutcome :=
  if !(pyDictTruthy item) then .skipped
  else
    match formatStorageItem ts batch_num item with
    | none =>
      .rejected (("Error storing item ") ++ toString idx ++ (" for user ") ++ user_id)
    | some storage_item =>
      if validate_storage_item storage_item then .stored storage_item
      else .rejected (("Invalid item data for item ") ++ toString idx)

/-- The whole storage loop over the enumerated batch. -/
def storeOutcomes (user_id ts : String) (batch_num : Nat)
    (items : List PyDict) : List ItemOutcome :=
  (items.enum).map (fun p => storeItemOutcome user_id ts batch_num p.1 p.2)

/-- The records appended to `user_doc['items']`, in order. -/
def storedOf (outs : List ItemOutcome) : List PyDict :=
  outs.filterMap (fun o => match o with | .stored r => some r | _ => none)

/-- The `errors` list accumulated by the loop, in order: exactly one entry
per rejected item. -/
def errorsOf (outs : List ItemOutcome) : List String :=
  outs.filterMap (fun o => match o with | .rejected e => some e | _ => none)

/-- The value returned by `store_items_activity` (minus logging). -/
structure StoreResult where
  status : String
  batch : Nat
  stored_count : Nat
  total_items : Nat
  errors : List String
  user_id : String
deriving DecidableEq

/-- The return value of `store_items_activity` (lines 376–383):
`"success"` iff every input item was stored, `"partial_failure"` iff some
but not all, `"failure"` otherwise. -/
def store_items_result (user_id ts : String) (batch_num : Nat)
    (items : List PyDict) : StoreResult :=
  let outs := storeOutcomes user_id ts batch_num items
  let stored_count := (storedOf outs).length
  { status :=
      if stored_count = items.length then "success"
      else if 0 < stored_count then "partial_failure"
      else "failure"
    batch := batch_num
    stored_count := stored_count
    total_items := items.length
    errors := errorsOf outs
    user_id := user_id }

/-- The per-user destination document, as read/created, mutated and
upserted by `store_items_activity`.  `itemCount` is `none` for a document
on which line 363 has not yet run (the freshly created document has no
such key). -/
structure UserDoc where
  id : String
  userId : String
  supplier_name : PyVal
  items : List PyDict
  timestamp : String
  itemCount : Option Nat
deriving DecidableEq

/-- The fresh document created when the user has none
(lines 305–311). -/
def initial_user_doc (user_id : String) (items : List PyDict) (ts : String) :
    UserDoc :=
  { id := user_id
    userId := user_id
    supplier_name :=
      match items with
      | [] => .vStr ""
      | it :: _ => pyGetD it ("supplier") (.vStr (""))
    items := []
    timestamp := ts
    itemCount := none }

/-- The document handed to `upsert_item` by `store_items_activity`:
existing (or fresh) document, validated records appended, timestamp
refreshed, `itemCount` recomputed as the length of the final items
array. -/
def store_items_doc (existing : Option UserDoc) (user_id ts : String)
    (batch_num : Nat) (items : List PyDict) : UserDoc :=
  let doc0 := existing.getD (initial_user_doc user_id items ts)
  let new_items := doc0.items ++ storedOf (storeOutcomes user_id ts batch_num items)
  { doc0 with
      items := new_items
      timestamp := ts
      itemCount := some new_items.length }

/-- The per-user documents reachable through successful executions of the
storage activity: the first batch creates the document, later batches
update the previously stored one. -/
inductive ReachableDoc : UserDoc → Prop where
  | start (user_id ts : String) (batch_num : Nat) (items : List PyDict) :
      ReachableDoc (store_items_doc none user_id ts batch_num items)
  | step (d : UserDoc) (user_id ts : String) (batch_num : Nat)
      (items : List PyDict) : ReachableDoc d →
      ReachableDoc (store_items_doc (some d) user_id ts batch_num items)

/-- The names bound at module scope in `function_app.py` (its imports and
`from`-imports).  `asyncio` is not among them, although line 374 uses
`asyncio.sleep`. -/
def functionAppModuleNames : List String :=
  ["func", "df", "CosmosClient", "logging", "os", "List", "Dict", "Any",
   "Optional", "datetime", "AsyncOpenAI", "json", "standardize_item_name",
   "evaluate_and_correct_item_name", "process_inventory_item",
   "load_jsonl_data", "extract_final_name"]

/-- Evaluating the backoff statement `await asyncio.sleep(1)` in the
module environment of `function_app.py`: since `asyncio` is not a bound
module name, it raises `NameError`. -/
def awaitAsyncioSleep : Except String Unit :=
  if functionAppModuleNames.contains ("asyncio") then .ok ()
  else .error (("NameError: name ") ++ aposS ++ ("asyncio") ++ aposS ++ (" is not defined"))

/-- `max_retries` of the storage upsert loop. -/
def max_retries : Nat := 3

/-- The retry loop of lines 366–374, fuelled by the remaining range
iterations.  `upsert attempt` is the outcome of `dest_container.upsert_item`
on that attempt.  Returns the surfaced outcome together with the number of
upsert attempts actually made. -/
def upsertRetryAux (upsert : Nat → Except String Unit) :
    Nat → Nat → Except String Unit × Nat
  | 0, attempt => (.error "range exhausted", attempt)
  | fuel + 1, attempt =>
    match upsert attempt with
    | .ok _ => (.ok (), attempt + 1)
    | .error e =>
      if attempt = max_retries - 1 then (.error e, attempt + 1)
      else
        match awaitAsyncioSleep with
        | .ok _ => upsertRetryAux upsert fuel (attempt + 1)
        | .error ne => (.error ne, attempt + 1)

/-- The storage upsert with the source's retry loop. -/
def upsert_with_retry (upsert : Nat → Except String Unit) :
    Except String Unit × Nat :=
  upsertRetryAux upsert max_retries 0

/-- Modelled from the spec: the same retry loop as `upsert_with_retry`,
but in an environment where the backoff (`asyncio.sleep`) is available and
succeeds — the behaviour §5 of the spec describes ("bounded retry
(3 attempts) with a fixed backoff before surfacing failure"), which the
source's missing `import asyncio` breaks. -/
def upsertRetrySpecAux (upsert : Nat → Except String Unit) :
    Nat → Nat → Except String Unit × Nat
  | 0, attempt => (.error "range exhausted", attempt)
  | fuel + 1, attempt =>
    match upsert attempt with
    | .ok _ => (.ok (), attempt + 1)
    | .error e =>
      if attempt = max_retries - 1 then (.error e, attempt + 1)
      else upsertRetrySpecAux upsert fuel (attempt + 1)

/-- Modelled from the spec: bounded retry with working backoff. -/
def upsert_with_retry_spec (upsert : Nat → Except String Unit) :
    Except String Unit × Nat :=
  upsertRetrySpecAux upsert max_retries 0

/-! ## Definitions following the spec/claim wording (for comparison) -/

/-- Modelled from the claim (C1) / spec §4.5 step 3 as stated: the second
correction round is invoked on `n1 or s0` — the first round's extracted
name when extraction succeeded, otherwise the first-pass standardized
name — and the second extraction result, when present, is the accepted
final name. -/
def specNameCorrectionPipelineC1 (llm : String → Except String String)
    (training_data : List TrainingExample) (item_name category : String) :
    Option String :=
  let s0 := standardize_item_name llm item_name training_data category
  let e1 := evaluate_and_correct_item_name llm s0 item_name category training_data
  let n1 := extract_final_name e1
  let candidate :=
    match n1 with
    | some s => if s == "" then s0 else s
    | none => s0
  let e2 := evaluate_and_correct_item_name llm candidate item_name category training_data
  extract_final_name e2

/-- Modelled from the claim (C5) as literally stated: brand priority with
the untrimmed "substring before the first `/`" / "substring before the
possessive apostrophe". -/
def brandSpecLiteral (item_name : String) : String :=
  let cs := item_name.data
  if cs.contains (Char.ofNat 47) then ⟨cs.takeWhile (fun c => !(c = Char.ofNat 47))⟩
  else if cs.contains apos then ⟨cs.takeWhile (fun c => !(c = apos))⟩
  else firstWordBrand (pyWords cs)

/-- The claim (C5) amended: as `brandSpecLiteral`, but the substring taken
before the first `/` (respectively before the possessive apostrophe) is
trimmed of surrounding whitespace. -/
def brandSpecTrimmed (item_name : String) : String :=
  let cs := item_name.data
  if cs.contains (Char.ofNat 47) then
    ⟨pyStrip (cs.takeWhile (fun c => !(c = Char.ofNat 47)))⟩
  else if cs.contains apos then
    ⟨pyStrip (cs.takeWhile (fun c => !(c = apos)))⟩
  else firstWordBrand (pyWords cs)

/-- The prefix every evaluation prompt starts with; the standardized name
under evaluation follows it directly, so a prompt starting with this
prefix extended by `"None\n"` is exactly a second-round prompt built from
a failed first extraction (rendered `"None"`), since a name slot holding
`"None..."` with more text before the newline would not match the final
`"\n"`. -/
def evalPromptMark : List Char :=
  ("Evaluate and correct the following standardized inventory item name:\nStandardized name: None\nOriginal name: orig\n").data

/-- A concrete deterministic language-model oracle separating the code's
second-round input from the claimed `n1 or s0`: it standardizes `"orig"`
to `"S0"`, answers an evaluation prompt whose standardized-name slot holds
the rendering `"None"` of a failed extraction with a well-labelled
response, and answers everything else (in particular the round-one and
round-two prompts built from `"S0"`) with text carrying no
`Final corrected name:` line. -/
def llmCX (p : String) : Except String String :=
  if evalPromptMark.isPrefixOf p.data then
    .ok ("Final corrected name: NB\nExplanation: x")
  else if ("As a restaurant").data.isPrefixOf p.data then .ok ("S0")
  else .ok ("no label here")

set_option maxRecDepth 100000

/-- Whether a loop outcome stored its item. -/
def isStoredB : ItemOutcome → Bool
  | .stored _ => true
  | _ => false

/-- Whether a loop outcome rejected its item (recording one error). -/
def isRejectedB : ItemOutcome → Bool
  | .rejected _ => true
  | _ => false

/-- A destination record of the canonical storage shape (four text fields,
five numeric-slot fields), used to state the validator contract. -/
def mkStorageRecord (inv_name item_number category measured_in : String)
    (qic moe tu cp cou : PyVal) : PyDict :=
  [("Inventory Item Name", .vStr inv_name), ("Item Number", .vStr item_number),
   ("Category", .vStr category), ("Measured In", .vStr measured_in),
   ("Quantity In a Case", qic), ("Measurement Of Each Item", moe),
   ("Total Units", tu), ("Case Price", cp), ("Cost of a Unit", cou)]

/-- "Present, of numeric type, and non-negative". -/
def isNonnegNum (v : PyVal) : Prop := ∃ q : Rat, v = .vNum q ∧ 0 ≤ q

/-- A complete processed item (as produced by `process_single_item`) whose
storage record passes validation. -/
def itemComplete : PyDict :=
  [("supplier", .vStr ("Acme Foods")), ("itemName", .vStr ("Heinz Ketchup")),
   ("itemNumber", .vStr ("A1")), ("quantityInCase", .vNum 2),
   ("measurementOfEachItem", .vNum 1), ("measuredIn", .vStr ("lb")),
   ("totalUnitsOrdered", .vNum 2), ("casePrice", .vNum 10),
   ("costOfUnit", .vNum 5), ("productCategory", .vStr ("produce"))]

/-- The same processed item with `itemNumber` missing, so the formatted
record has an empty `Item Number` and fails validation. -/
def itemNoNumber : PyDict :=
  [("supplier", .vStr ("Acme Foods")), ("itemName", .vStr ("Heinz Ketchup")),
   ("quantityInCase", .vNum 2), ("measurementOfEachItem", .vNum 1),
   ("measuredIn", .vStr ("lb")), ("totalUnitsOrdered", .vNum 2),
   ("casePrice", .vNum 10), ("costOfUnit", .vNum 5),
   ("productCategory", .vStr ("produce"))]

/-- A processed item whose `casePrice` is `-1`, so the formatted record
fails the numeric validation. -/
def itemNegPrice : PyDict :=
  [("supplier", .vStr ("Acme Foods")), ("itemName", .vStr ("Tyson/Chicken Breast")),
   ("itemNumber", .vStr ("B2")), ("quantityInCase", .vNum 4),
   ("measurementOfEachItem", .vNum 2), ("measuredIn", .vStr ("lb")),
   ("totalUnitsOrdered", .vNum 4), ("casePrice", .vNum (-1)),
   ("costOfUnit", .vNum 3), ("productCategory", .vStr ("meat"))]

/-! ## Helper lemmas about the embedded string primitives -/

theorem pyCharsSplitOn_ne_nil (sep : Char) (cs : List Char) :
    pyCharsSplitOn sep cs ≠ [] := by
  cases cs with
  | nil => simp [pyCharsSplitOn]
  | cons c cs =>
    simp only [pyCharsSplitOn]
    split
    · simp
    · cases pyCharsSplitOn sep cs <;> simp

theorem pyCharsSplitOn_headD (sep : Char) (cs : List Char) :
    (pyCharsSplitOn sep cs).headD [] = cs.takeWhile (fun c => !(c = sep)) := by
  induction cs with
  | nil => rfl
  | cons c cs ih =>
    simp only [pyCharsSplitOn, List.takeWhile]
    by_cases h : c = sep
    · simp [h]
    · cases hrec : pyCharsSplitOn sep cs with
      | nil => exact absurd hrec (pyCharsSplitOn_ne_nil sep cs)
      | cons w ws =>
        simp [h, hrec] at ih ⊢
        exact ih

theorem pyCharsSplitOn_head?_getD (sep : Char) (cs : List Char) :
    (pyCharsSplitOn sep cs).head?.getD [] = cs.takeWhile (fun c => !(c = sep)) := by
  have h := pyCharsSplitOn_headD sep cs
  cases hrec : pyCharsSplitOn sep cs with
  | nil => exact absurd hrec (pyCharsSplitOn_ne_nil sep cs)
  | cons w ws => rw [hrec] at h; simpa using h

theorem pyCharsSplitOn_one_lt_length (sep : Char) (cs : List Char) :
    1 < (pyCharsSplitOn sep cs).length ↔ sep ∈ cs := by
  induction cs with
  | nil => simp [pyCharsSplitOn]
  | cons c cs ih =>
    simp only [pyCharsSplitOn]
    by_cases h : c = sep
    · have hne := pyCharsSplitOn_ne_nil sep cs
      have : 0 < (pyCharsSplitOn sep cs).length := List.length_pos.mpr hne
      simp [h]
      omega
    · cases hrec : pyCharsSplitOn sep cs with
      | nil => exact absurd hrec (pyCharsSplitOn_ne_nil sep cs)
      | cons w ws =>
        rw [hrec] at ih
        simp only [List.length_cons] at ih ⊢
        simp [List.mem_cons, h, ih]
        intro hc
        exact absurd hc.symm h

theorem pyWordsAux_eq_nil (cs : List Char) :
    ∀ acc, pyWordsAux acc cs = [] → acc = [] ∧ ∀ c ∈ cs, pyIsWS c := by
  induction cs with
  | nil =>
    intro acc h
    simp only [pyWordsAux] at h
    split at h
    · rename_i hacc
      exact ⟨List.isEmpty_iff.mp hacc, by simp⟩
    · exact absurd h (by simp)
  | cons c cs ih =>
    intro acc h
    simp only [pyWordsAux] at h
    split at h
    · rename_i hws
      split at h
      · rename_i hacc
        obtain ⟨-, hall⟩ := ih [] h
        exact ⟨List.isEmpty_iff.mp hacc, by
          intro x hx
          rcases List.mem_cons.mp hx with rfl | hx
          · exact hws
          · exact hall x hx⟩
      · exact absurd h (by simp)
    · obtain ⟨hcons, -⟩ := ih (c :: acc) h
      exact absurd hcons (by simp)

theorem pyWords_eq_nil (cs : List Char) (h : pyWords cs = []) :
    ∀ c ∈ cs, pyIsWS c :=
  (pyWordsAux_eq_nil cs [] h).2

theorem pyReplaceChar_self (a : Char) (cs : List Char) :
    pyReplaceChar a a cs = cs := by
  induction cs with
  | nil => rfl
  | cons c cs ih =>
    simp only [pyReplaceChar, List.map_cons] at ih ⊢
    rw [ih]
    by_cases h : c = a
    · simp [h]
    · simp [h]

theorem scanFinalName_eq_find? (lines : List (List Char)) :
    scanFinalName lines =
      (lines.find? (fun l => finalNameLabel.isPrefixOf (l.map Char.toLower))).map
        (fun l => (⟨pyStrip (afterFirstColon l)⟩ : String)) := by
  induction lines with
  | nil => rfl
  | cons l ls ih =>
    by_cases h : finalNameLabel.isPrefixOf (l.map Char.toLower)
    · simp [scanFinalName, List.find?_cons_of_pos, h]
    · simp [scanFinalName, List.find?_cons_of_neg, h, ih]

/-! ## Claim theorems -/

/-- C6: `extract_final_name` splits its input on line breaks, scans the
lines in order, and returns the trimmed substring after the first colon of
the first line whose lowercase form starts with `final corrected name:`;
when no line matches — including an `Error:`-prefixed sentinel input — it
returns `none` (the Lean model is total, matching the source, which never
raises).  Concretely, `"Final corrected name: Chicken, Diced\nExplanation:
..."` yields `"Chicken, Diced"`. -/
theorem c6_extract_final_name_spec :
    (∀ s : String,
      extract_final_name s =
        ((pyCharsSplitOn (Char.ofNat 10) s.data).find?
            (fun l => finalNameLabel.isPrefixOf (l.map Char.toLower))).map
          (fun l => (⟨pyStrip (afterFirstColon l)⟩ : String)))
    ∧ extract_final_name ("Final corrected name: Chicken, Diced\nExplanation: standardized to core form")
        = some ("Chicken, Diced")
    ∧ extract_final_name ("The item name looks fine.\nNo correction needed.") = none
    ∧ extract_final_name ("Error: API connection failed") = none :=
  ⟨fun s => scanFinalName_eq_find? _, by decide, by decide, by decide⟩

/-- C2 counterexample: the rules lookup is *not* case-insensitive —
`"BAKERY"` and `"bakery"` differ only in letter case (same `lower()`
image), `"bakery"` matches the stored key `"BAKERY"` up to case, yet the
lookup yields that key's rules only for the exact spelling and the empty
list for the variant. -/
theorem c2_counterexample :
    pyLower ("BAKERY") = pyLower ("bakery")
    ∧ categoryRulesGet ("BAKERY")
        = ["Specify bread type first", "Include shape and size if relevant"]
    ∧ categoryRulesGet ("bakery") = []
    ∧ categoryRulesGet ("BAKERY") ≠ categoryRulesGet ("bakery") := by
  refine ⟨by decide, by decide, by decide, by decide⟩

/-- C2 amended: the lookup of category-specific rules used to build the
standardizer and evaluator prompts is case-sensitive exact match: a
category equal to a stored `category_specific_rules` key yields that key's
rules, and any other category string — including a case variant of a
stored key — yields the empty list. -/
theorem c2_amended_rules_lookup :
    (∀ c rules, (c, rules) ∈ category_specific_rules → categoryRulesGet c = rules)
    ∧ (∀ c : String, (∀ p ∈ category_specific_rules, p.1 ≠ c) →
        categoryRulesGet c = []) := by
  constructor
  · intro c rules h
    fin_cases h <;> decide
  · intro c h
    have : List.find? (fun p => p.1 = c) category_specific_rules = none :=
      List.find?_eq_none.mpr (fun p hp => by simpa using h p hp)
    simp [categoryRulesGet, this]

/-- C2 witness: the amended lookup contract at the stored key `"BAKERY"`
and at the unknown category `"bakery"`. -/
theorem c2_amended_rules_lookup_witness :
    categoryRulesGet ("BAKERY")
        = ["Specify bread type first", "Include shape and size if relevant"]
    ∧ categoryRulesGet ("bakery") = [] :=
  ⟨c2_amended_rules_lookup.1 ("BAKERY") _ (by decide),
   c2_amended_rules_lookup.2 ("bakery") (by decide)⟩

/-- C7: the claim (3 upsert attempts, each retry preceded by a backoff,
failure surfacing only after the third) describes the intended retry loop,
but the code never imports `asyncio`: on a batch whose first
`upsert_item` call fails, the backoff statement itself raises `NameError`,
so the activity surfaces a failure after a single attempt, with no sleep
and no retry.  The spec-modelled loop (with a working backoff) shows the
claimed behaviour: three attempts before surfacing, and success on a
later attempt. -/
theorem c7_code_behavior :
    upsert_with_retry (fun _ => Except.error ("ServiceUnavailable"))
        = (Except.error (("NameError: name ") ++ aposS ++ ("asyncio") ++ aposS ++ (" is not defined")), 1)
    ∧ upsert_with_retry (fun _ => Except.ok ()) = (Except.ok (), 1)
    ∧ upsert_with_retry_spec (fun _ => Except.error ("ServiceUnavailable"))
        = (Except.error ("ServiceUnavailable"), 3)
    ∧ upsert_with_retry_spec (fun n => if n < 2 then Except.error ("ServiceUnavailable") else Except.ok ())
        = (Except.ok (), 3) :=
  ⟨rfl, rfl, rfl, rfl⟩

/-- C10: every successful execution of the storage activity upserts a
document whose `itemCount` equals the length of its `items` array and
whose timestamp is the invocation's write time; and since every batch
recomputes `itemCount` from the final items array just before the upsert,
the equality is an invariant of every reachable stored document. -/
theorem c10_itemcount_invariant :
    (∀ (existing : Option UserDoc) (user_id ts : String) (batch_num : Nat)
       (items : List PyDict),
        (store_items_doc existing user_id ts batch_num items).itemCount
            = some (store_items_doc existing user_id ts batch_num items).items.length
        ∧ (store_items_doc existing user_id ts batch_num items).timestamp = ts)
    ∧ (∀ d : UserDoc, ReachableDoc d → d.itemCount = some d.items.length) := by
  constructor
  · intro existing user_id ts batch_num items
    exact ⟨rfl, rfl⟩
  · intro d h
    induction h with
    | start user_id ts batch_num items => rfl
    | step d user_id ts batch_num items _ _ => rfl

/-- C10 witness: the invariant at a concrete reachable document (first
batch of one validated item for user `"u"`). -/
theorem c10_itemcount_invariant_witness :
    (store_items_doc none ("u") ("2024-01-01T00:00:00") 1 []).itemCount
        = some (store_items_doc none ("u") ("2024-01-01T00:00:00") 1 []).items.length :=
  c10_itemcount_invariant.2 _ (ReachableDoc.start ("u") ("2024-01-01T00:00:00") 1 [])

/-- C5 counterexample: the claim's untrimmed reading fails — for
`"Tyson /Chicken Breast"` the substring before the first `/` is
`"Tyson "` (trailing space), while the code strips it and returns
`"Tyson"`. -/
theorem c5_counterexample :
    extract_brand ("Tyson /Chicken Breast") = ("Tyson")
    ∧ brandSpecLiteral ("Tyson /Chicken Breast") = ("Tyson ")
    ∧ extract_brand ("Tyson /Chicken Breast")
        ≠ brandSpecLiteral ("Tyson /Chicken Breast") := by
  refine ⟨by decide, by decide, by decide⟩

/-- C5 amended: brand extraction follows the claimed priority with the
extracted substrings trimmed of surrounding whitespace: substring before
the first `/` (trimmed) if the name contains `/`; else substring before
the possessive apostrophe (trimmed) if it contains one; else the first
word when it starts with an uppercase letter; else `"Generic"`.  The
claim's four concrete anchors hold as stated. -/
theorem c5_brand_priority :
    (∀ name : String, extract_brand name = brandSpecTrimmed name)
    ∧ extract_brand ("Tyson/Chicken Breast") = ("Tyson")
    ∧ extract_brand (("Bob") ++ aposS ++ ("s Sauce")) = ("Bob")
    ∧ extract_brand ("fresh basil") = ("Generic")
    ∧ extract_brand ("Heinz Ketchup") = ("Heinz") := by
  refine ⟨?_, by decide, by decide, by decide, by decide⟩
  intro name
  unfold extract_brand brandSpecTrimmed
  by_cases hw : pyWords name.data = []
  · have hall := pyWords_eq_nil name.data hw
    have h47m : ¬ (Char.ofNat 47 ∈ name.data) := fun hm =>
      absurd (hall _ hm) (by decide)
    have hapm : ¬ (apos ∈ name.data) := fun hm =>
      absurd (hall _ hm) (by decide)
    simp [hw, h47m, hapm, firstWordBrand]
  · have hwe : (pyWords name.data).isEmpty = false := by
      simpa using hw
    by_cases h47m : Char.ofNat 47 ∈ name.data
    · simp [hwe, h47m, pyCharsSplitOn_head?_getD]
    · by_cases hapm : apos ∈ name.data
      · have hlen : 1 < (pyCharsSplitOn apos name.data).length :=
          (pyCharsSplitOn_one_lt_length apos name.data).mpr hapm
        simp [hwe, h47m, hapm, pyReplaceChar_self, hlen, pyCharsSplitOn_head?_getD]
      · simp [hwe, h47m, hapm]

/-- C1 counterexample: a concrete deterministic oracle on which the code's
pipeline and the claimed `evaluateAndCorrect(n1 or s0, ...)` pipeline
disagree — the first extraction fails, the code hands the rendered
`"None"` (not the standardized `"S0"`) to the second round, and only the
code's run produces an accepted final name. -/
theorem c1_counterexample :
    nameCorrectionPipeline llmCX [] ("orig") ("") = some ("NB")
    ∧ specNameCorrectionPipelineC1 llmCX [] ("orig") ("") = none := by
  refine ⟨by decide, by decide⟩

/-- C1 amended: the second correction round is invoked on the first
round's extraction result exactly as obtained — the extracted name when
extraction succeeded, and otherwise its Python string rendering `"None"`,
*not* the first-pass standardized name; the second extraction result is
attached as the accepted final name only when truthy (present and
non-empty), and an item stored without a corrected name falls back to
`itemName` at storage formatting. -/
theorem c1_second_round_input :
    ∀ (llm : String → Except String String) (td : List TrainingExample) (o c : String),
      (∀ s, extract_final_name
            (evaluate_and_correct_item_name llm (standardize_item_name llm o td c) o c td)
              = some s →
          nameCorrectionPipeline llm td o c
            = attachIfTruthy (extract_final_name (evaluate_and_correct_item_name llm s o c td)))
      ∧ (extract_final_name
            (evaluate_and_correct_item_name llm (standardize_item_name llm o td c) o c td)
              = none →
          nameCorrectionPipeline llm td o c
            = attachIfTruthy (extract_final_name (evaluate_and_correct_item_name llm ("None") o c td)))
      ∧ (∀ (ts : String) (b : Nat) (d : PyDict) (r : PyDict),
          dictGet d ("final_corrected_name") = none →
          formatStorageItem ts b d = some r →
          dictGet r ("Inventory Item Name") = some (pyGetD d ("itemName") (.vStr ("")))) := by
  intro llm td o c
  refine ⟨?_, ?_, ?_⟩
  · intro s h
    simp only [nameCorrectionPipeline, h, pyStrOfOpt]
  · intro h
    simp only [nameCorrectionPipeline, h, pyStrOfOpt]
  · intro ts b d r h1 h2
    revert h2
    unfold formatStorageItem
    rcases pyFloat (pyGetD d ("quantityInCase") (.vNum 0)) with _ | q1 <;>
      rcases pyFloat (pyGetD d ("measurementOfEachItem") (.vNum 0)) with _ | q2 <;>
      rcases pyFloat (pyGetD d ("totalUnitsOrdered") (.vNum 0)) with _ | q3 <;>
      rcases pyFloat (pyGetD d ("casePrice") (.vNum 0)) with _ | q4 <;>
      rcases pyFloat (pyGetD d ("costOfUnit") (.vNum 0)) with _ | q5 <;>
      intro h2 <;> simp only [Option.some.injEq, reduceCtorEq] at h2
    rw [← h2]
    simp only [dictGet] at h1
    simp [dictGet, List.find?, h1]

/-- C1 witness: the amended contract instantiated — a run whose first
extraction succeeds (a constant oracle answering with a labelled
response), the `llmCX` run whose first extraction fails, and the storage
fallback on a concrete processed item without a corrected name. -/
theorem c1_second_round_input_witness :
    (nameCorrectionPipeline (fun _ => Except.ok ("Final corrected name: X\nExplanation: e")) [] ("orig") ("")
        = attachIfTruthy (extract_final_name
            (evaluate_and_correct_item_name
              (fun _ => Except.ok ("Final corrected name: X\nExplanation: e"))
              ("X") ("orig") ("") [])))
    ∧ (nameCorrectionPipeline llmCX [] ("orig") ("")
        = attachIfTruthy (extract_final_name
            (evaluate_and_correct_item_name llmCX ("None") ("orig") ("") [])))
    ∧ dictGet ((formatStorageItem ("T0") 1 [("itemName", PyVal.vStr ("Tuna"))]).getD [])
          ("Inventory Item Name")
        = some (pyGetD [("itemName", PyVal.vStr ("Tuna"))] ("itemName") (PyVal.vStr (""))) :=
  ⟨(c1_second_round_input (fun _ => Except.ok ("Final corrected name: X\nExplanation: e"))
      [] ("orig") ("")).1 ("X") (by decide),
   (c1_second_round_input llmCX [] ("orig") ("")).2.1 (by decide),
   (c1_second_round_input llmCX [] ("orig") ("")).2.2 ("T0") 1
      [("itemName", PyVal.vStr ("Tuna"))]
      ((formatStorageItem ("T0") 1 [("itemName", PyVal.vStr ("Tuna"))]).getD [])
      (by decide) (by decide)⟩

/-- C8: when the corrector's language-model call fails,
`evaluate_and_correct_item_name` returns (never raises) the string
`"Error: "` followed by the failure detail; the sentinel flows downstream
only as a value, and extraction fails to parse it whenever — as for any
real exception text — it contains no `final corrected name:` line. -/
theorem c8_error_sentinel :
    ∀ (llm : String → Except String String) (s o c : String)
      (td : List TrainingExample) (m : String),
      llm (evalCorrectPrompt s o c td) = .error m →
      evaluate_and_correct_item_name llm s o c td = ("Error: ") ++ m
      ∧ ((∀ l ∈ pyCharsSplitOn (Char.ofNat 10) (("Error: ") ++ m).data,
            ¬ finalNameLabel.isPrefixOf (l.map Char.toLower)) →
          extract_final_name (("Error: ") ++ m) = none) := by
  intro llm s o c td m h
  constructor
  · simp [evaluate_and_correct_item_name, h]
  · intro hl
    rw [extract_final_name, scanFinalName_eq_find?,
      List.find?_eq_none.mpr (fun l hmem => by simpa using hl l hmem)]
    rfl

/-- C8 witness: the sentinel contract at a concrete failing oracle. -/
theorem c8_error_sentinel_witness :
    evaluate_and_correct_item_name (fun _ => Except.error ("rate limited"))
        ("Chicken, Diced") ("chicken dice bulk") ("meat") []
      = ("Error: ") ++ ("rate limited")
    ∧ extract_final_name (("Error: ") ++ ("rate limited")) = none :=
  have h := c8_error_sentinel (fun _ => Except.error ("rate limited"))
    ("Chicken, Diced") ("chicken dice bulk") ("meat") [] ("rate limited") rfl
  ⟨h.1, h.2 (by decide)⟩

theorem process_single_item_none_of_float (llm : String → Except String String)
    (td : List TrainingExample) (supplier invoice_id invoice_number user_id : PyVal)
    (item : PyDict)
    (h : pyFloat (pyGetD item ("Quantity In a Case") (.vNum 0)) = none
       ∨ pyFloat (pyGetD item ("Measurement Of Each Item") (.vNum 0)) = none
       ∨ pyFloat (pyGetD item ("Total Units Ordered") (.vNum 0)) = none
       ∨ pyFloat (pyGetD item ("Case Price") (.vNum 0)) = none
       ∨ pyFloat (pyGetD item ("Cost of a Unit") (.vNum 0)) = none) :
    process_single_item llm td supplier invoice_id invoice_number user_id item = none := by
  unfold process_single_item
  rcases h1 : pyFloat (pyGetD item ("Quantity In a Case") (.vNum 0)) with _ | a <;>
    rcases h2 : pyFloat (pyGetD item ("Measurement Of Each Item") (.vNum 0)) with _ | b <;>
    rcases h3 : pyFloat (pyGetD item ("Total Units Ordered") (.vNum 0)) with _ | e <;>
    rcases h4 : pyFloat (pyGetD item ("Case Price") (.vNum 0)) with _ | f <;>
    rcases h5 : pyFloat (pyGetD item ("Cost of a Unit") (.vNum 0)) with _ | g <;>
    simp_all

/-- C9: in `process_single_item` the zero defaults apply only to absent
fields — when any of the five quantity/price fields is present with a
value `float()` cannot coerce, the exception is caught at the item
boundary and the activity returns no result (`none`), dropping the whole
item; an item with all five fields absent is processed with every numeric
field defaulted to `0`. -/
theorem c9_uncoercible_field_drops_item :
    (∀ (llm : String → Except String String) (td : List TrainingExample)
       (supplier invoice_id invoice_number user_id v : PyVal)
       (item : PyDict) (f : String),
        f ∈ (["Quantity In a Case", "Measurement Of Each Item",
              "Total Units Ordered", "Case Price", "Cost of a Unit"] : List String) →
        dictGet item f = some v → pyFloat v = none →
        process_single_item llm td supplier invoice_id invoice_number user_id item = none)
    ∧ process_single_item (fun _ => Except.error ("offline")) []
        (.vStr ("Acme")) (.vStr ("inv-1")) (.vStr ("0001")) (.vStr ("user-1"))
        [("Item Name", PyVal.vStr ("Tomatoes"))]
      = some
        [("supplier", PyVal.vStr ("Acme")), ("invoice_id", PyVal.vStr ("inv-1")),
         ("invoice_number", PyVal.vStr ("0001")), ("userId", PyVal.vStr ("user-1")),
         ("itemName", PyVal.vStr ("Tomatoes")), ("itemNumber", PyVal.vStr ("")),
         ("quantityInCase", PyVal.vNum 0), ("measurementOfEachItem", PyVal.vNum 0),
         ("measuredIn", PyVal.vStr ("")), ("totalUnitsOrdered", PyVal.vNum 0),
         ("casePrice", PyVal.vNum 0), ("catchWeight", PyVal.vStr ("N/A")),
         ("pricedBy", PyVal.vStr ("")), ("splitable", PyVal.vStr ("NO")),
         ("splitPrice", PyVal.vStr ("N/A")), ("costOfUnit", PyVal.vNum 0),
         ("productCategory", PyVal.vStr (""))] := by
  constructor
  · intro llm td supplier invoice_id invoice_number user_id v item f hf hget hfloat
    have hx : pyFloat (pyGetD item f (.vNum 0)) = none := by
      simp [pyGetD, hget, hfloat]
    fin_cases hf
    · exact process_single_item_none_of_float _ _ _ _ _ _ _ (Or.inl hx)
    · exact process_single_item_none_of_float _ _ _ _ _ _ _ (Or.inr (Or.inl hx))
    · exact process_single_item_none_of_float _ _ _ _ _ _ _ (Or.inr (Or.inr (Or.inl hx)))
    · exact process_single_item_none_of_float _ _ _ _ _ _ _ (Or.inr (Or.inr (Or.inr (Or.inl hx))))
    · exact process_single_item_none_of_float _ _ _ _ _ _ _ (Or.inr (Or.inr (Or.inr (Or.inr hx))))
  · decide

/-- C9 witness: a raw item whose `Case Price` is present but not a number
is dropped whole. -/
theorem c9_uncoercible_field_drops_item_witness :
    process_single_item (fun _ => Except.error ("offline")) []
        (.vStr ("Acme")) (.vStr ("inv-1")) (.vStr ("0001")) (.vStr ("user-1"))
        [("Item Name", PyVal.vStr ("Cheese")), ("Case Price", PyVal.vStr ("twelve dollars"))]
      = none :=
  c9_uncoercible_field_drops_item.1 _ [] _ _ _ _ (PyVal.vStr ("twelve dollars"))
    [("Item Name", PyVal.vStr ("Cheese")), ("Case Price", PyVal.vStr ("twelve dollars"))]
    ("Case Price") (by decide) (by decide) (by decide)

theorem storedOf_cons_stored (r : PyDict) (os : List ItemOutcome) :
    storedOf (.stored r :: os) = r :: storedOf os := rfl

theorem storedOf_cons_skipped (os : List ItemOutcome) :
    storedOf (.skipped :: os) = storedOf os := rfl

theorem storedOf_cons_rejected (e : String) (os : List ItemOutcome) :
    storedOf (.rejected e :: os) = storedOf os := rfl

theorem errorsOf_cons_stored (r : PyDict) (os : List ItemOutcome) :
    errorsOf (.stored r :: os) = errorsOf os := rfl

theorem errorsOf_cons_skipped (os : List ItemOutcome) :
    errorsOf (.skipped :: os) = errorsOf os := rfl

theorem errorsOf_cons_rejected (e : String) (os : List ItemOutcome) :
    errorsOf (.rejected e :: os) = e :: errorsOf os := rfl

theorem storedOf_length_le (outs : List ItemOutcome) :
    (storedOf outs).length ≤ outs.length := by
  induction outs with
  | nil => simp [storedOf]
  | cons o os ih =>
    cases o with
    | skipped =>
      rw [storedOf_cons_skipped, List.length_cons]
      exact Nat.le_succ_of_le ih
    | stored r =>
      rw [storedOf_cons_stored, List.length_cons, List.length_cons]
      exact Nat.succ_le_succ ih
    | rejected e =>
      rw [storedOf_cons_rejected, List.length_cons]
      exact Nat.le_succ_of_le ih

theorem storedOf_length_eq_iff (outs : List ItemOutcome) :
    (storedOf outs).length = outs.length ↔ ∀ o ∈ outs, isStoredB o = true := by
  induction outs with
  | nil => simp [storedOf]
  | cons o os ih =>
    cases o with
    | stored r =>
      rw [storedOf_cons_stored, List.length_cons, List.length_cons]
      simp only [Nat.succ.injEq, Nat.add_right_cancel_iff, ih, List.mem_cons]
      constructor
      · intro h o hm
        rcases hm with rfl | hm
        · rfl
        · exact h o hm
      · intro h o hm
        exact h o (Or.inr hm)
    | skipped =>
      have hle := storedOf_length_le os
      rw [storedOf_cons_skipped, List.length_cons]
      constructor
      · intro h
        exact absurd h (by omega)
      · intro h
        exact absurd (h .skipped (by simp)) (by simp [isStoredB])
    | rejected e =>
      have hle := storedOf_length_le os
      rw [storedOf_cons_rejected, List.length_cons]
      constructor
      · intro h
        exact absurd h (by omega)
      · intro h
        exact absurd (h (.rejected e) (by simp)) (by simp [isStoredB])

theorem errorsOf_length (outs : List ItemOutcome) :
    (errorsOf outs).length = (outs.filter isRejectedB).length := by
  induction outs with
  | nil => rfl
  | cons o os ih =>
    cases o with
    | stored r =>
      rw [errorsOf_cons_stored]
      simp [List.filter_cons, isRejectedB, ih]
    | skipped =>
      rw [errorsOf_cons_skipped]
      simp [List.filter_cons, isRejectedB, ih]
    | rejected e =>
      rw [errorsOf_cons_rejected]
      simp [List.filter_cons, isRejectedB, ih]

theorem storeOutcomes_length (user_id ts : String) (batch_num : Nat)
    (items : List PyDict) :
    (storeOutcomes user_id ts batch_num items).length = items.length := by
  simp [storeOutcomes]

/-- C3: the batch storage activity's result has status `"success"` exactly
when every item of the batch was stored, `"partial_failure"` exactly when
some but not all were, and `"failure"` exactly when none were (of a
non-empty batch); it carries the batch number, `total_items`, the stored
count, and exactly one error string per rejected item.  Concretely, a
batch of a complete item and one lacking `Item Number` yields
`stored_count = 1`, `total_items = 2`, status `"partial_failure"`, and one
rejection reason. -/
theorem c3_batch_result_contract :
    (∀ (user_id ts : String) (batch_num : Nat) (items : List PyDict),
      ((store_items_result user_id ts batch_num items).status = "success"
          ↔ ∀ o ∈ storeOutcomes user_id ts batch_num items, isStoredB o = true)
      ∧ ((store_items_result user_id ts batch_num items).status = "partial_failure"
          ↔ 0 < (store_items_result user_id ts batch_num items).stored_count
            ∧ (store_items_result user_id ts batch_num items).stored_count
                < (store_items_result user_id ts batch_num items).total_items)
      ∧ ((store_items_result user_id ts batch_num items).status = "failure"
          ↔ (store_items_result user_id ts batch_num items).stored_count = 0
            ∧ (store_items_result user_id ts batch_num items).total_items ≠ 0)
      ∧ (store_items_result user_id ts batch_num items).batch = batch_num
      ∧ (store_items_result user_id ts batch_num items).total_items = items.length
      ∧ (store_items_result user_id ts batch_num items).stored_count
          = (storedOf (storeOutcomes user_id ts batch_num items)).length
      ∧ (store_items_result user_id ts batch_num items).errors
          = errorsOf (storeOutcomes user_id ts batch_num items)
      ∧ ((store_items_result user_id ts batch_num items).errors).length
          = ((storeOutcomes user_id ts batch_num items).filter isRejectedB).length)
    ∧ store_items_result ("u1") ("T0") 1 [itemComplete, itemNoNumber]
        = { status := "partial_failure", batch := 1, stored_count := 1,
            total_items := 2, errors := ["Invalid item data for item 1"],
            user_id := "u1" } := by
  constructor
  · intro user_id ts batch_num items
    have hlen := storeOutcomes_length user_id ts batch_num items
    have hle : (storedOf (storeOutcomes user_id ts batch_num items)).length
        ≤ items.length := hlen ▸ storedOf_length_le _
    have hall : (storedOf (storeOutcomes user_id ts batch_num items)).length = items.length
        ↔ ∀ o ∈ storeOutcomes user_id ts batch_num items, isStoredB o = true := by
      rw [← hlen]
      exact storedOf_length_eq_iff _
    have hstat : (store_items_result user_id ts batch_num items).status =
        if (storedOf (storeOutcomes user_id ts batch_num items)).length = items.length
        then "success"
        else if 0 < (storedOf (storeOutcomes user_id ts batch_num items)).length
        then "partial_failure" else "failure" := rfl
    have hscr : (store_items_result user_id ts batch_num items).stored_count
        = (storedOf (storeOutcomes user_id ts batch_num items)).length := rfl
    have htot : (store_items_result user_id ts batch_num items).total_items
        = items.length := rfl
    refine ⟨?_, ?_, ?_, rfl, rfl, rfl, rfl, errorsOf_length _⟩
    · rw [hstat]
      split_ifs with h1 h2
      · exact iff_of_true rfl (hall.mp h1)
      · exact iff_of_false (by decide) (fun hAll => h1 (hall.mpr hAll))
      · exact iff_of_false (by decide) (fun hAll => h1 (hall.mpr hAll))
    · rw [hstat, hscr, htot]
      split_ifs with h1 h2
      · exact iff_of_false (by decide) (by omega)
      · exact iff_of_true rfl (by omega)
      · exact iff_of_false (by decide) (by omega)
    · rw [hstat, hscr, htot]
      split_ifs with h1 h2
      · exact iff_of_false (by decide) (by omega)
      · exact iff_of_false (by decide) (by omega)
      · exact iff_of_true rfl (by omega)
  · decide

theorem validNumericSlot_some (v : PyVal) :
    validNumericSlot (some v) = true ↔ isNonnegNum v := by
  cases v <;> simp [validNumericSlot, isNonnegNum]

/-- C4: the storage validator accepts a canonical record iff the four text
fields are non-empty and the five numeric fields are present, numeric and
non-negative; a record whose `Case Price` is `-1` or a string is rejected;
and in a batch a violating item is dropped with one rejection reason while
the surrounding items are still stored. -/
theorem c4_validator_contract :
    (∀ (a b c d : String) (qic moe tu cp cou : PyVal),
      validate_storage_item (mkStorageRecord a b c d qic moe tu cp cou) = true
        ↔ (a ≠ "" ∧ b ≠ "" ∧ c ≠ "" ∧ d ≠ ""
           ∧ isNonnegNum qic ∧ isNonnegNum moe ∧ isNonnegNum tu
           ∧ isNonnegNum cp ∧ isNonnegNum cou))
    ∧ validate_storage_item (mkStorageRecord ("Ketchup, Squeeze") ("B2")
        ("Dry Grocery") ("case") (.vNum 6) (.vNum 32) (.vNum 6) (.vNum (-1)) (.vNum 4))
      = false
    ∧ validate_storage_item (mkStorageRecord ("Ketchup, Squeeze") ("B2")
        ("Dry Grocery") ("case") (.vNum 6) (.vNum 32) (.vNum 6) (.vStr ("12.50")) (.vNum 4))
      = false
    ∧ validate_storage_item (mkStorageRecord ("Ketchup, Squeeze") ("B2")
        ("Dry Grocery") ("case") (.vNum 6) (.vNum 32) (.vNum 6) (.vNum 12) (.vNum 4))
      = true
    ∧ store_items_result ("u2") ("T1") 2 [itemComplete, itemNegPrice, itemComplete]
        = { status := "partial_failure", batch := 2, stored_count := 2,
            total_items := 3, errors := ["Invalid item data for item 1"],
            user_id := "u2" } := by
  refine ⟨?_, by decide, by decide, by decide, by decide⟩
  intro a b c d qic moe tu cp cou
  have h1 : dictGet (mkStorageRecord a b c d qic moe tu cp cou)
      ("Inventory Item Name") = some (.vStr a) := rfl
  have h2 : dictGet (mkStorageRecord a b c d qic moe tu cp cou)
      ("Item Number") = some (.vStr b) := rfl
  have h3 : dictGet (mkStorageRecord a b c d qic moe tu cp cou)
      ("Category") = some (.vStr c) := rfl
  have h4 : dictGet (mkStorageRecord a b c d qic moe tu cp cou)
      ("Measured In") = some (.vStr d) := rfl
  have h5 : dictGet (mkStorageRecord a b c d qic moe tu cp cou)
      ("Quantity In a Case") = some qic := rfl
  have h6 : dictGet (mkStorageRecord a b c d qic moe tu cp cou)
      ("Measurement Of Each Item") = some moe := rfl
  have h7 : dictGet (mkStorageRecord a b c d qic moe tu cp cou)
      ("Total Units") = some tu := rfl
  have h8 : dictGet (mkStorageRecord a b c d qic moe tu cp cou)
      ("Case Price") = some cp := rfl
  have h9 : dictGet (mkStorageRecord a b c d qic moe tu cp cou)
      ("Cost of a Unit") = some cou := rfl
  unfold validate_storage_item
  simp only [List.all_cons, List.all_nil, Bool.and_true,
    h1, h2, h3, h4, h5, h6, h7, h8, h9]
  simp [pyTruthy, validNumericSlot_some, Bool.and_eq_true, and_assoc]
